import Mathlib

/-!
Verification development for `src/sonic/create-docker.py` (single-file build
orchestration script).  The pure string/filename heuristics of the script are
shallowly embedded as executable Lean functions operating on `String` and
`List Char`:

* the platform lookup tables `PLATFORM_MAPPING` and `QCOW2_TO_PLATFORM`;
* stage-1 platform inference `_extract_platform_from_filename`;
* stage-2 platform extraction `_extract_platform_from_qcow2_filename` and the
  refinement step `_refine_platform_from_extracted_files`;
* companion-archive name reconstruction from `find_iso_tar_from_image_tar`;
* the docker-image-path scan `_extract_docker_image_path` and the final
  exit-code policy of `CreateSingleDocker.run`;
* the sentinel scanning of `_cleanup_img_drop_folder` and
  `_cleanup_yaml_drop_folder`.

Filesystem effects (existence tests, recursive deletion, `Path.resolve`) are
abstracted as function parameters; Python regular expressions are embedded as
deterministic character-list matchers whose determinism relative to the
backtracking semantics is argued in the comments next to each definition.
-/

/-! ### Character and list utilities mirroring Python string primitives -/

/-- Removes a literal character sequence from the front of a text, returning
the rest on success (helper used to embed literal parts of the Python
regular expressions and `str.startswith`). -/
def dropLit : List Char → List Char → Option (List Char)
  | [], s => some s
  | _ :: _, [] => none
  | p :: ps, c :: cs => if p == c then dropLit ps cs else none

/-- Python `str.split(sep)` for a one-character separator: splitting `""`
gives `[""]`, adjacent separators give empty fields. -/
def splitOnChar (sep : Char) : List Char → List (List Char)
  | [] => [[]]
  | c :: cs =>
    match splitOnChar sep cs with
    | [] => if c == sep then [[], []] else [[c]]
    | h :: t => if c == sep then [] :: h :: t else (c :: h) :: t

/-- Whitespace test backing Python `str.strip` and the regex class `\s`
(ASCII behaviour; the script only ever meets ASCII output). -/
def isSpaceChar (c : Char) : Bool := c.isWhitespace

/-- Python `str.strip()`: removes leading and trailing whitespace. -/
def pyStripList (cs : List Char) : List Char :=
  ((cs.dropWhile isSpaceChar).reverse.dropWhile isSpaceChar).reverse

/-- Python `str.strip()` on `String`. -/
def pyStrip (s : String) : String := String.mk (pyStripList s.data)

/-- Python `pathlib.Path(s).name`: the final path component. -/
def pyName (s : String) : String := String.mk ((splitOnChar '/' s.data).getLastD s.data)

/-- Suffix of a final path component, as computed by `pathlib.Path.suffix`:
the part of the name from its last dot, empty for names with no dot, a
leading dot only, or a trailing dot. -/
def suffixOfName (name : List Char) : List Char :=
  let r := name.reverse
  let afterRev := r.takeWhile (fun c => c != '.')
  let rest := r.dropWhile (fun c => c != '.')
  match rest with
  | '.' :: before => if afterRev.isEmpty || before.isEmpty then [] else '.' :: afterRev.reverse
  | _ => []

/-- Python `pathlib.Path(s).suffix`. -/
def pySuffixOf (s : String) : String := String.mk (suffixOfName (pyName s).data)

/-- Python `str.lower()` (ASCII behaviour). -/
def strToLower (s : String) : String := String.mk (s.data.map Char.toLower)

/-- Python `str.startswith(pat)`. -/
def strStarts (pat s : String) : Bool := (dropLit pat.data s.data).isSome

/-- Python `str.endswith(pat)`. -/
def strEnds (pat s : String) : Bool := (dropLit pat.data.reverse s.data.reverse).isSome

/-- Python `pat in s` substring test. -/
def hasSubSeq (pat : List Char) : List Char → Bool
  | [] => (dropLit pat []).isSome
  | c :: cs => (dropLit pat (c :: cs)).isSome || hasSubSeq pat cs

/-- First `some` produced by `f` over a list, mirroring a Python `for` loop
that `return`s on the first successful iteration. -/
def firstSome (f : α → Option β) : List α → Option β
  | [] => none
  | a :: rest =>
    match f a with
    | some b => some b
    | none => firstSome f rest

/-- Python `dict` lookup `tbl.get(k)` / `k in tbl`, for the two module-level
tables (association list in insertion order; keys are unique). -/
def pyLookup (tbl : List (String × String)) (k : String) : Option String :=
  match tbl.find? (fun p => p.fst == k) with
  | some p => some p.snd
  | none => none

/-! ### The module-level platform tables (create-docker.py lines 103-146) -/

/-- Embedding of the module-level constant `PLATFORM_MAPPING`, in the
source's insertion order. -/
def PLATFORM_MAPPING : List (String × String) :=
  [("8000", "8000"),
   ("8101", "8101-32H"),
   ("8102", "8102-64H"),
   ("8122", "8122-64EHF-O"),
   ("8201", "8201-32FH"),
   ("8202", "8202"),
   ("8212", "8212-48FH-M"),
   ("8711", "8711-32FH-M"),
   ("8804", "8804"),
   ("8808", "8800-lc-36fh-m"),
   ("8101-32FH", "8101-32FH"),
   ("8101-32H", "8101-32H"),
   ("8102-64H", "8102-64H"),
   ("8111-32EH", "8111-32EH"),
   ("8122-64EHF-O", "8122-64EHF-O"),
   ("8201-24H8FH", "8201-24H8FH"),
   ("8201-sys", "8201-sys"),
   ("8201-32FH", "8201-32FH"),
   ("8202-32FH-M", "8202-32FH-M"),
   ("8212-48FH-M", "8212-48FH-M"),
   ("8711-32FH-M", "8711-32FH-M"),
   ("ncs1010", "ncs1010")]

/-- Embedding of the module-level constant `QCOW2_TO_PLATFORM`, in the
source's insertion order. -/
def QCOW2_TO_PLATFORM : List (String × String) :=
  [("8000-x64", "8201-sys"),
   ("8101-x64", "8101-32H"),
   ("8101-32FH-x64", "8101-32FH"),
   ("8102-x64", "8102-64H"),
   ("8111-32EH-x64", "8111-32EH"),
   ("8122-64EHF-O-x64", "8122-64EHF-O"),
   ("8201-x64", "8201-32FH"),
   ("8202-x64", "8202"),
   ("8202-32FH-M-x64", "8202-32FH-M"),
   ("8212-48FH-M-x64", "8212-48FH-M"),
   ("8711-32FH-M-x64", "8711-32FH-M")]

/-! ### Stage-1 inference: `_extract_platform_from_filename` (lines 284-329) -/

/-- Python `filename.split('-')`. -/
def pySplitDash (s : String) : List String := (splitOnChar '-' s.data).map String.mk

/-- Segment following the first occurrence of marker `m` in the split parts:
`parts[parts.index(m) + 1]` guarded by `m in parts` and the bounds check. -/
def afterMarker (parts : List String) (m : String) : Option String :=
  match parts.dropWhile (fun p => p != m) with
  | _ :: nxt :: _ => some nxt
  | _ => none

/-- `platform_part.split('-')[0] if '-' in platform_part else platform_part`
(line 312). -/
def dashHead (s : String) : String :=
  if s.data.contains '-' then String.mk ((splitOnChar '-' s.data).headD s.data) else s

/-- `part.isdigit() and len(part) == 4 and part.startswith('8')` (line 322). -/
def is4digit8 (p : String) : Bool :=
  p.data.all Char.isDigit && p.data.length == 4 &&
    (match p.data with
     | '8' :: _ => true
     | _ => false)

/-- The `'d' in parts` branch (lines 294-299): the segment after the first
`d` marker looked up in the platform table; `none` means the branch falls
through. -/
def dMarkerLookup (parts : List String) : Option String :=
  (afterMarker parts "d").bind (pyLookup PLATFORM_MAPPING)

/-- The `'f' in parts` branch (lines 301-314): the segment after the first
`f` marker looked up in the platform table, then its part before the first
dash (which, for genuine split segments, is the segment itself). -/
def fMarkerLookup (parts : List String) : Option String :=
  (afterMarker parts "f").bind (fun cand =>
    match pyLookup PLATFORM_MAPPING cand with
    | some v => some v
    | none => pyLookup PLATFORM_MAPPING (dashHead cand))

/-- Embedding of `_extract_platform_from_filename`: marker branches, then the
`ncs1010` substring check, then the scan for a 4-digit `8`-prefixed segment
(with table lookup defaulting to the raw segment), and finally the default
platform `"8201-32FH"` reached through the caught `ValueError`. -/
def extract_platform_from_filename (filename : String) : String :=
  let parts := pySplitDash filename
  match dMarkerLookup parts with
  | some v => v
  | none =>
    match fMarkerLookup parts with
    | some v => v
    | none =>
      if hasSubSeq "ncs1010".data filename.data then "ncs1010"
      else
        match parts.find? is4digit8 with
        | some t => (pyLookup PLATFORM_MAPPING t).getD t
        | none => "8201-32FH"

/-! ### Stage-2 extraction: `_extract_platform_from_qcow2_filename`
    (lines 240-282) -/

/-- Python `qcow2_filename.replace('.qcow2', '')`: removes every (non
overlapping, left-to-right) occurrence of `.qcow2`. -/
def stripQcowOcc : List Char → List Char
  | '.' :: 'q' :: 'c' :: 'o' :: 'w' :: '2' :: rest => stripQcowOcc rest
  | c :: rest => c :: stripQcowOcc rest
  | [] => []

/-- Python `key.replace('-x64', '')` used for the partial-match pass. -/
def stripX64Occ : List Char → List Char
  | '-' :: 'x' :: '6' :: '4' :: rest => stripX64Occ rest
  | c :: rest => c :: stripX64Occ rest
  | [] => []

/-- Embedding of `re.sub(r'-x64-\d+\.\d+\.\d+$|-\d+\.\d+\.\d+$', '', base)`.
Both alternatives are anchored at the end of the string, so at most one
removal happens and the removed suffix is forced: the three digit runs are
the maximal runs next to the two dots before the end (a longer run would put
a digit where the pattern requires `.`, `-` or `$`), and leftmost preference
picks the `-x64-` alternative whenever it applies.  The text is therefore
parsed deterministically from the right. -/
def stripVersionSuffix (cs : List Char) : List Char :=
  let r := cs.reverse
  let c3 := r.takeWhile Char.isDigit
  let r1 := r.dropWhile Char.isDigit
  if c3.isEmpty then cs else
  match r1 with
  | '.' :: r2 =>
    let c2 := r2.takeWhile Char.isDigit
    let r2' := r2.dropWhile Char.isDigit
    if c2.isEmpty then cs else
    match r2' with
    | '.' :: r3 =>
      let c1 := r3.takeWhile Char.isDigit
      let r3' := r3.dropWhile Char.isDigit
      if c1.isEmpty then cs else
      match r3' with
      | '-' :: '4' :: '6' :: 'x' :: '-' :: r4 => r4.reverse
      | '-' :: r4 => r4.reverse
      | _ => cs
    | _ => cs
  | _ => cs

/-- The stem a qcow2 filename is resolved by: extension occurrences removed,
then the trailing version suffix stripped (lines 247-253). -/
def qcow2Stem (fn : String) : String :=
  String.mk (stripVersionSuffix (stripQcowOcc fn.data))

/-- Embedding of `re.match(r'^(\d{4})', base_name)` (line 271): the first
four characters when they are all digits. -/
def leadingFour : List Char → Option (List Char)
  | a :: b :: c :: d :: _ =>
    if a.isDigit && b.isDigit && c.isDigit && d.isDigit then some [a, b, c, d] else none
  | _ => none

/-- The partial-match pass (lines 264-268): first table entry whose key with
`-x64` removed equals the stem. -/
def x64KeyLookup (stem : String) : Option String :=
  match QCOW2_TO_PLATFORM.find? (fun p => String.mk (stripX64Occ p.fst.data) == stem) with
  | some p => some p.snd
  | none => none

/-- Embedding of `_extract_platform_from_qcow2_filename`: exact match in the
qcow2 table, then the `-x64`-stripped partial match, then the leading
4-digit token resolved through `PLATFORM_MAPPING` (raw token when absent),
otherwise no result. -/
def extract_platform_from_qcow2_filename (qcow2Filename : String) : Option String :=
  let baseName := qcow2Stem qcow2Filename
  match pyLookup QCOW2_TO_PLATFORM baseName with
  | some v => some v
  | none =>
    match x64KeyLookup baseName with
    | some v => some v
    | none =>
      match leadingFour baseName.data with
      | some bp => some ((pyLookup PLATFORM_MAPPING (String.mk bp)).getD (String.mk bp))
      | none => none

/-! ### Stage-2 refinement and the platform pipeline (lines 223-238, 375-396,
    728-824) -/

/-- The filter `f.suffix.lower() == '.qcow2'` applied to extracted paths
(line 382). -/
def isQcow2File (f : String) : Bool := strToLower (pySuffixOf f) == ".qcow2"

/-- Embedding of `_refine_platform_from_extracted_files`: when the filtered
qcow2 list is nonempty, the platform extracted from the first entry's name
replaces the current platform, provided the extraction produced a truthy
value; in every other case the current platform stands.  The Python
`try/except` never fires on string operations, and is modelled by the
function's totality. -/
def refine_platform_from_extracted_files (platform : String) (extractedFiles : List String) : String :=
  match (extractedFiles.filter isQcow2File).head? with
  | none => platform
  | some f =>
    match extract_platform_from_qcow2_filename (pyName f) with
    | some r => if r == "" then platform else r
    | none => platform

/-- The platform choice of `_validate_inputs` (lines 234-236): a truthy
user-supplied `--platform` value is kept verbatim, otherwise stage-1
inference runs on the image-archive filename. -/
def platform_after_validate (userPlatform : Option String) (imageTarName : String) : String :=
  match userPlatform with
  | some p => if p == "" then extract_platform_from_filename imageTarName else p
  | none => extract_platform_from_filename imageTarName

/-- The platform actually passed to the build command: the validated choice
refined by the extracted image-archive contents (`run`, line 755). -/
def final_platform (userPlatform : Option String) (imageTarName : String)
    (extractedFiles : List String) : String :=
  refine_platform_from_extracted_files (platform_after_validate userPlatform imageTarName)
    extractedFiles

/-- Modelled from the spec: the spec's data-model invariant speaks of one
platform string being "more specific" than another (filename guess refined
to a fuller variant name).  Following the spec's words, a value is strictly
more specific than an old one when it extends it: the old value is a proper
front part of the new one. -/
def specMoreSpecificB (newP oldP : String) : Bool :=
  (dropLit oldP.data newP.data).isSome && newP != oldP

/-! ### Helper facts -/

/-- Boolean disequality from propositional disequality for `String`. -/
theorem strBeqFalse {a b : String} (h : a ≠ b) : (a == b) = false := by
  simp [beq_eq_false_iff_ne, h]

/-! ### Claim theorems -/

/-- C1: when at least one extracted file has the `.qcow2` extension, stage-2
refinement replaces the stage-1 platform with the value derived from the
first such filename, independently of the stage-1 value (pure replacement,
never a merge, even when the new value is less specific); when derivation
fails the stage-1 value stands. -/
theorem c1_stage2_pure_replacement (files : List String) (f : String)
    (hq : (files.filter isQcow2File).head? = some f) :
    (∀ r, extract_platform_from_qcow2_filename (pyName f) = some r → r ≠ "" →
      ∀ p₁ p₂ : String,
        refine_platform_from_extracted_files p₁ files = r ∧
        refine_platform_from_extracted_files p₂ files = r) ∧
    (extract_platform_from_qcow2_filename (pyName f) = none →
      ∀ p : String, refine_platform_from_extracted_files p files = p) := by
  constructor
  · intro r hr hne p₁ p₂
    constructor <;>
      simp [refine_platform_from_extracted_files, hq, hr, strBeqFalse hne]
  · intro hr p
    simp [refine_platform_from_extracted_files, hq, hr]

/-- Witness for C1: extracted file `8202.qcow2` resolves to platform `8202`,
which replaces both a different stage-1 guess and the strictly more specific
value `8202-32FH-M`. -/
theorem c1_witness :
    (["8202.qcow2"].filter isQcow2File).head? = some "8202.qcow2" ∧
    refine_platform_from_extracted_files "8101-32H" ["8202.qcow2"] = "8202" ∧
    refine_platform_from_extracted_files "8202-32FH-M" ["8202.qcow2"] = "8202" :=
  ⟨by decide,
   (c1_stage2_pure_replacement ["8202.qcow2"] "8202.qcow2" (by decide)).1
     "8202" (by decide) (by decide) "8101-32H" "8202-32FH-M"⟩

/-- C2: stage-1 inference returns the table-mapped value for a candidate
segment following a `d` or `f` marker (candidate lookup, then its
before-first-dash part, first hit winning, exactly as the code's branch
functions do), falls back to the scanned 4-digit `8`-prefixed segment (raw
when absent from the table), returns the default platform when every
strategy fails, and maps `8000-2512-f-8101-image-eft15.1.tar` to
`8101-32H`. -/
theorem c2_stage1_platform_inference :
    (∀ fn v, dMarkerLookup (pySplitDash fn) = some v →
        extract_platform_from_filename fn = v) ∧
    (∀ fn v, dMarkerLookup (pySplitDash fn) = none →
        fMarkerLookup (pySplitDash fn) = some v →
        extract_platform_from_filename fn = v) ∧
    (∀ fn t, dMarkerLookup (pySplitDash fn) = none →
        fMarkerLookup (pySplitDash fn) = none →
        hasSubSeq "ncs1010".data fn.data = false →
        (pySplitDash fn).find? is4digit8 = some t →
        pyLookup PLATFORM_MAPPING t = none →
        extract_platform_from_filename fn = t) ∧
    (∀ fn, dMarkerLookup (pySplitDash fn) = none →
        fMarkerLookup (pySplitDash fn) = none →
        hasSubSeq "ncs1010".data fn.data = false →
        (pySplitDash fn).find? is4digit8 = none →
        extract_platform_from_filename fn = "8201-32FH") ∧
    extract_platform_from_filename "8000-2512-f-8101-image-eft15.1.tar" = "8101-32H" := by
  refine ⟨?_, ?_, ?_, ?_, by decide⟩
  · intro fn v h
    simp [extract_platform_from_filename, h]
  · intro fn v hd hf
    simp [extract_platform_from_filename, hd, hf]
  · intro fn t hd hf hn hs hl
    simp [extract_platform_from_filename, hd, hf, hn, hs, hl]
  · intro fn hd hf hn hs
    simp [extract_platform_from_filename, hd, hf, hn, hs]

/-- Witness for C2: the documented scenario-A filename goes through the `f`
marker branch and yields `8101-32H`. -/
theorem c2_witness :
    dMarkerLookup (pySplitDash "8000-2512-f-8101-image-eft15.1.tar") = none ∧
    fMarkerLookup (pySplitDash "8000-2512-f-8101-image-eft15.1.tar") = some "8101-32H" ∧
    extract_platform_from_filename "8000-2512-f-8101-image-eft15.1.tar" = "8101-32H" :=
  ⟨by decide, by decide,
   c2_stage1_platform_inference.2.1 "8000-2512-f-8101-image-eft15.1.tar" "8101-32H"
     (by decide) (by decide)⟩

/-- C3 counterexample: stage-2 refinement sets a platform that is already in
the run state back to a strictly less specific value.  With the platform set
to `8202-32FH-M` and extracted file `8202.qcow2`, refinement replaces it
with `8202`, which is not more specific — it is a proper front part of the
previous value. -/
theorem c3_specificity_invariant_counterexample :
    refine_platform_from_extracted_files "8202-32FH-M" ["8202.qcow2"] = "8202" ∧
    specMoreSpecificB "8202" "8202-32FH-M" = false ∧
    specMoreSpecificB "8202-32FH-M" "8202" = true := by
  decide

/-- C3 amended: once set, the platform is changed by at most one later
operation — stage-2 refinement — and that operation performs pure
replacement with the qcow2-derived value, with no guarantee that the new
value is more specific; in every other case the platform is unchanged. -/
theorem c3_specificity_invariant_amended :
    ∀ (p : String) (files : List String),
      refine_platform_from_extracted_files p files = p ∨
      ∃ f r, (files.filter isQcow2File).head? = some f ∧
        extract_platform_from_qcow2_filename (pyName f) = some r ∧ r ≠ "" ∧
        refine_platform_from_extracted_files p files = r := by
  intro p files
  rcases hq : (files.filter isQcow2File).head? with _ | f
  · left
    simp [refine_platform_from_extracted_files, hq]
  · rcases hr : extract_platform_from_qcow2_filename (pyName f) with _ | r
    · left
      simp [refine_platform_from_extracted_files, hq, hr]
    · by_cases he : r = ""
      · left
        simp [refine_platform_from_extracted_files, hq, hr, he]
      · right
        exact ⟨f, r, rfl, hr, he,
          by simp [refine_platform_from_extracted_files, hq, hr, strBeqFalse he]⟩

/-- C5: stage-2 extraction resolves the version-stripped stem in order —
exact qcow2-table match, `-x64`-stripped key match, leading 4-digit token
through the platform table (raw when absent), otherwise no result — and
resolves `8101-32FH-x64-25.1.2.qcow2` to `8101-32FH`. -/
theorem c5_qcow2_platform_resolution :
    (∀ fn v, pyLookup QCOW2_TO_PLATFORM (qcow2Stem fn) = some v →
        extract_platform_from_qcow2_filename fn = some v) ∧
    (∀ fn v, pyLookup QCOW2_TO_PLATFORM (qcow2Stem fn) = none →
        x64KeyLookup (qcow2Stem fn) = some v →
        extract_platform_from_qcow2_filename fn = some v) ∧
    (∀ fn bp, pyLookup QCOW2_TO_PLATFORM (qcow2Stem fn) = none →
        x64KeyLookup (qcow2Stem fn) = none →
        leadingFour (qcow2Stem fn).data = some bp →
        extract_platform_from_qcow2_filename fn =
          some ((pyLookup PLATFORM_MAPPING (String.mk bp)).getD (String.mk bp))) ∧
    (∀ fn, pyLookup QCOW2_TO_PLATFORM (qcow2Stem fn) = none →
        x64KeyLookup (qcow2Stem fn) = none →
        leadingFour (qcow2Stem fn).data = none →
        extract_platform_from_qcow2_filename fn = none) ∧
    extract_platform_from_qcow2_filename "8101-32FH-x64-25.1.2.qcow2" = some "8101-32FH" := by
  refine ⟨?_, ?_, ?_, ?_, by decide⟩
  · intro fn v h
    simp [extract_platform_from_qcow2_filename, h]
  · intro fn v h1 h2
    simp [extract_platform_from_qcow2_filename, h1, h2]
  · intro fn bp h1 h2 h3
    simp [extract_platform_from_qcow2_filename, h1, h2, h3]
  · intro fn h1 h2 h3
    simp [extract_platform_from_qcow2_filename, h1, h2, h3]

/-- Witness for C5: the scenario-B qcow2 filename resolves through the
`-x64`-stripped key pass to `8101-32FH`. -/
theorem c5_witness :
    pyLookup QCOW2_TO_PLATFORM (qcow2Stem "8101-32FH-x64-25.1.2.qcow2") = none ∧
    x64KeyLookup (qcow2Stem "8101-32FH-x64-25.1.2.qcow2") = some "8101-32FH" ∧
    extract_platform_from_qcow2_filename "8101-32FH-x64-25.1.2.qcow2" = some "8101-32FH" :=
  ⟨by decide, by decide,
   c5_qcow2_platform_resolution.2.1 "8101-32FH-x64-25.1.2.qcow2" "8101-32FH"
     (by decide) (by decide)⟩

/-- C6: a truthy user-supplied `--platform` skips stage-1 filename inference
but stage-2 refinement still runs: when the first extracted qcow2 filename
resolves, the user's platform is replaced by the derived value in the
platform ultimately used for the build command. -/
theorem c6_user_platform_overridden :
    ∀ (userP fn : String) (files : List String) (f r : String),
      userP ≠ "" →
      (files.filter isQcow2File).head? = some f →
      extract_platform_from_qcow2_filename (pyName f) = some r →
      r ≠ "" →
      platform_after_validate (some userP) fn = userP ∧
      final_platform (some userP) fn files = r := by
  intro userP fn files f r hu hq hr hne
  constructor
  · simp [platform_after_validate, strBeqFalse hu]
  · simp [final_platform, platform_after_validate, refine_platform_from_extracted_files,
      hq, hr, strBeqFalse hu, strBeqFalse hne]

/-- Witness for C6: a user-supplied platform `8101-32H` survives validation
unchanged yet is replaced by `8202` derived from the extracted
`8202.qcow2`. -/
theorem c6_witness :
    platform_after_validate (some "8101-32H") "custom.tar" = "8101-32H" ∧
    final_platform (some "8101-32H") "custom.tar" ["8202.qcow2"] = "8202" ∧
    ("8202" : String) ≠ "8101-32H" :=
  ⟨(c6_user_platform_overridden "8101-32H" "custom.tar" ["8202.qcow2"] "8202.qcow2" "8202"
      (by decide) (by decide) (by decide) (by decide)).1,
   (c6_user_platform_overridden "8101-32H" "custom.tar" ["8202.qcow2"] "8202.qcow2" "8202"
      (by decide) (by decide) (by decide) (by decide)).2,
   by decide⟩

/-! ### Companion-archive name reconstruction: `find_iso_tar_from_image_tar`
    (lines 857-935)

The function matches the image-archive filename against three anchored
regular expressions and rebuilds the installer-archive name from the two
captured groups.  The regexes are embedded as deterministic matchers; the
backtracking semantics collapses to determinism here because

* every `\d+` is followed in the pattern by a non-digit (`-` or `.`), so a
  successful match forces each digit run to be the maximal one;
* the pattern ends with `(eft[\d\.]+)\.tar$`, and `[\d.]` excludes letters,
  so the `eft<v>.tar` suffix of any successful match is unique: `v` is the
  maximal digit/dot run before the final `.tar`, fixing where the
  `-image-`/`-images-` literal sits, and hence whether the optional
  `(?:-[\w-]+)?` group is taken;
* the optional-group and bare alternatives are mutually exclusive (one
  requires the remainder before the literal to be empty, the other
  nonempty), so the regex engine's greedy preference never changes the
  captures.

The tail of the text after the platform digit run is therefore parsed from
the right on the reversed character list. -/

/-- Regex class `\d` (ASCII digits, which is all the filenames contain). -/
def isDig (c : Char) : Bool := c.isDigit

/-- Regex class `[\w-]` (ASCII behaviour of `\w` plus dash). -/
def isWordDash (c : Char) : Bool := c.isAlphanum || c == '_' || c == '-'

/-- Regex class `[\d.]` used in the eft capture group. -/
def isDigitDot (c : Char) : Bool := c.isDigit || c == '.'

/-- Reversed literal `-image-`. -/
def midImageRev : List Char := ['-', 'e', 'g', 'a', 'm', 'i', '-']

/-- Reversed literal `-images-`. -/
def midImagesRev : List Char := ['-', 's', 'e', 'g', 'a', 'm', 'i', '-']

/-- Matches `(?:-[\w-]+)?<mid>(eft[\d\.]+)\.tar$` against the reversed
remainder of the text, returning the digit/dot core of the captured eft
group.  `midRev` is the reversed `-image-` / `-images-` literal. -/
def matchTailRev (midRev : List Char) (rcs : List Char) : Option (List Char) :=
  match dropLit ['r', 'a', 't', '.'] rcs with
  | none => none
  | some r1 =>
    let vRev := r1.takeWhile isDigitDot
    let r2 := r1.dropWhile isDigitDot
    if vRev.isEmpty then none else
    match dropLit ['t', 'f', 'e'] r2 with
    | none => none
    | some r3 =>
      match dropLit midRev r3 with
      | none => none
      | some r4 =>
        match r4.reverse with
        | [] => some vRev.reverse
        | '-' :: w => if !w.isEmpty && w.all isWordDash then some vRev.reverse else none
        | _ => none

/-- Matches `^(8000-\d+)-<marker>-\d+(?:-[\w-]+)?<mid>(eft[\d\.]+)\.tar$`
and returns the digit run of group 1 (after `8000-`) and the digit/dot run
of group 2 (after `eft`). -/
def matchImageTarName (marker : Char) (midRev : List Char) (cs : List Char) :
    Option (List Char × List Char) :=
  match dropLit ['8', '0', '0', '0', '-'] cs with
  | none => none
  | some r1 =>
    let ver := r1.takeWhile isDig
    let r2 := r1.dropWhile isDig
    if ver.isEmpty then none else
    match dropLit ['-', marker, '-'] r2 with
    | none => none
    | some r3 =>
      let ds := r3.takeWhile isDig
      let r4 := r3.dropWhile isDig
      if ds.isEmpty then none else
      match matchTailRev midRev r4.reverse with
      | some v => some (ver, v)
      | none => none

/-- The installer-archive filename rebuilt from the captures:
`f"{base_pattern}-iso-{eft_version}.tar"` (line 905). -/
def buildIsoName (ver v : List Char) : String :=
  String.mk (['8', '0', '0', '0', '-'] ++ ver ++ ['-', 'i', 's', 'o', '-', 'e', 'f', 't']
    ++ v ++ ['.', 't', 'a', 'r'])

/-- Name-level embedding of `find_iso_tar_from_image_tar`: the three
patterns are tried in order (fixed `-f-...-image-`, distributed
`-d-...-images-`, then the generic `[fd]`/`images?` pattern, expanded into
its two combinations not already covered) and the companion name is rebuilt
from the first match.  The surrounding directory scanning and existence
checks are filesystem effects outside the reconstruction this models. -/
def find_iso_name (filename : String) : Option String :=
  let cs := filename.data
  let m :=
    match matchImageTarName 'f' midImageRev cs with
    | some g => some g
    | none =>
      match matchImageTarName 'd' midImagesRev cs with
      | some g => some g
      | none =>
        match matchImageTarName 'f' midImagesRev cs with
        | some g => some g
        | none => matchImageTarName 'd' midImageRev cs
  match m with
  | some g => some (buildIsoName g.fst g.snd)
  | none => none

/-! ### Helper lemmas for the matcher proofs -/

/-- Dropping a literal from a text that starts with it succeeds with the
rest. -/

theorem dropLit_self_app (p r : List Char) : dropLit p (p ++ r) = some r := by
  induction p with
  | nil => rfl
  | cons c cs ih => simp [dropLit, ih]

/-- A run of characters all satisfying the predicate passes through
`takeWhile`. -/
theorem takeWhile_app_all {p : Char → Bool} {l : List Char} (h : ∀ c ∈ l, p c = true)
    (r : List Char) : (l ++ r).takeWhile p = l ++ r.takeWhile p := by
  induction l with
  | nil => simp
  | cons a as ih =>
    have ha := h a (by simp)
    simp [List.takeWhile_cons, ha]
    exact ih (fun c hc => h c (by simp [hc]))

/-- A run of characters all satisfying the predicate is consumed by
`dropWhile`. -/
theorem dropWhile_app_all {p : Char → Bool} {l : List Char} (h : ∀ c ∈ l, p c = true)
    (r : List Char) : (l ++ r).dropWhile p = r.dropWhile p := by
  induction l with
  | nil => simp
  | cons a as ih =>
    have ha := h a (by simp)
    simp [List.dropWhile_cons, ha]
    exact ih (fun c hc => h c (by simp [hc]))

/-- The reversed-tail matcher accepts exactly the
`(?:-[\w-]+)?<mid>eft<v>.tar` shape and captures the digit/dot run. -/
theorem matchTailRev_shape (mid os v : List Char)
    (hv : v ≠ []) (hvd : ∀ c ∈ v, isDigitDot c = true)
    (hos : os = [] ∨ ∃ w, os = '-' :: w ∧ w ≠ [] ∧ w.all isWordDash = true) :
    matchTailRev mid.reverse
      (['r', 'a', 't', '.'] ++ (v.reverse ++ (['t', 'f', 'e'] ++ (mid.reverse ++ os.reverse))))
      = some v := by
  have hvd' : ∀ c ∈ v.reverse, isDigitDot c = true := fun c hc => hvd c (List.mem_reverse.mp hc)
  have hvE : v.reverse.isEmpty = false := by
    cases hvr : v.reverse with
    | nil => exact absurd (by simpa using congrArg List.reverse hvr) hv
    | cons a as => rfl
  simp only [matchTailRev, dropLit_self_app]
  rw [takeWhile_app_all hvd', dropWhile_app_all hvd']
  have ht : isDigitDot 't' = false := by decide
  simp only [List.cons_append, List.takeWhile_cons, List.dropWhile_cons, ht, if_false,
    Bool.false_eq_true, List.append_nil, hvE, dropLit, beq_self_eq_true, if_true,
    dropLit_self_app, List.reverse_reverse]
  rcases hos with rfl | ⟨w, rfl, hw, hwall⟩
  · have hdl : dropLit mid.reverse mid.reverse = some [] := by
      simpa using dropLit_self_app mid.reverse []
    simp [hdl]
  · have hdl := dropLit_self_app mid.reverse (w.reverse ++ ['-'])
    simp [hdl, hw]
    exact List.all_eq_true.mp hwall

/-- The pattern matcher accepts a well-formed image-archive name and
captures the release digit run and the eft digit/dot run. -/
theorem matchImageTarName_shape (marker : Char) (mtail : List Char)
    (ver ds os v : List Char)
    (hver : ver ≠ []) (hverd : ∀ c ∈ ver, isDig c = true)
    (hds : ds ≠ []) (hdsd : ∀ c ∈ ds, isDig c = true)
    (hv : v ≠ []) (hvd : ∀ c ∈ v, isDigitDot c = true)
    (hos : os = [] ∨ ∃ w, os = '-' :: w ∧ w ≠ [] ∧ w.all isWordDash = true) :
    matchImageTarName marker ('-' :: mtail).reverse
      (['8', '0', '0', '0', '-'] ++ (ver ++ ('-' :: marker :: '-' :: (ds ++ (os ++
        (('-' :: mtail) ++ ('e' :: 'f' :: 't' :: (v ++ ['.', 't', 'a', 'r'])))))))) =
      some (ver, v) := by
  have hverE : ver.isEmpty = false := by
    cases ver
    · exact absurd rfl hver
    · rfl
  have hdsE : ds.isEmpty = false := by
    cases ds
    · exact absurd rfl hds
    · rfl
  have hdash : isDig '-' = false := by decide
  have hmid : matchTailRev ('-' :: mtail).reverse
      (['r', 'a', 't', '.'] ++ (v.reverse ++ (['t', 'f', 'e'] ++
        (('-' :: mtail).reverse ++ os.reverse)))) = some v :=
    matchTailRev_shape ('-' :: mtail) os v hv hvd hos
  simp only [matchImageTarName, dropLit_self_app]
  rw [takeWhile_app_all hverd, dropWhile_app_all hverd]
  simp only [List.takeWhile_cons, List.dropWhile_cons, hdash, if_false, Bool.false_eq_true,
    List.append_nil, hverE, dropLit, beq_self_eq_true, if_true]
  rw [takeWhile_app_all hdsd, dropWhile_app_all hdsd]
  rcases hos with rfl | ⟨w, hwos, hw, hwall⟩
  · simp only [List.nil_append, List.cons_append, List.takeWhile_cons, List.dropWhile_cons,
      hdash, if_false, Bool.false_eq_true, List.append_nil, hdsE]
    rw [show (('-' :: (mtail ++ 'e' :: 'f' :: 't' :: (v ++ ['.', 't', 'a', 'r']))).reverse)
        = ['r', 'a', 't', '.'] ++ (v.reverse ++ (['t', 'f', 'e'] ++
          (('-' :: mtail).reverse ++ ([] : List Char).reverse))) from by
      simp [List.reverse_cons, List.reverse_append, List.append_assoc]]
    rw [hmid]
  · subst hwos
    simp only [List.cons_append, List.takeWhile_cons, List.dropWhile_cons,
      hdash, if_false, Bool.false_eq_true, List.append_nil, hdsE]
    rw [show (('-' :: (w ++ '-' :: (mtail ++ 'e' :: 'f' :: 't' :: (v ++ ['.', 't', 'a', 'r'])))).reverse)
        = ['r', 'a', 't', '.'] ++ (v.reverse ++ (['t', 'f', 'e'] ++
          (('-' :: mtail).reverse ++ ('-' :: w).reverse))) from by
      simp [List.reverse_cons, List.reverse_append, List.append_assoc]]
    rw [hmid]

/-- Character data of a constructed string. -/
theorem data_mk (l : List Char) : (String.mk l).data = l := rfl

/-- The pattern matcher rejects a name whose type marker differs from the
pattern's. -/
theorem matchImageTarName_wrong_marker (m1 m2 : Char) (midRev ver rest : List Char)
    (hverd : ∀ c ∈ ver, isDig c = true) (hne : (m1 == m2) = false) :
    matchImageTarName m1 midRev (['8', '0', '0', '0', '-'] ++ (ver ++ ('-' :: m2 :: rest))) = none := by
  have hdash : isDig '-' = false := by decide
  simp only [matchImageTarName, dropLit_self_app]
  rw [takeWhile_app_all hverd, dropWhile_app_all hverd]
  simp only [List.takeWhile_cons, List.dropWhile_cons, hdash, if_false, Bool.false_eq_true,
    List.append_nil, dropLit, beq_self_eq_true, if_true, hne]
  cases ver.isEmpty <;> simp

/-- C4: any image-archive filename of the fixed shape
`8000-<ver>-f-<ds><os>-image-eft<v>.tar` or the distributed shape
`8000-<ver>-d-<ds><os>-images-eft<v>.tar` (with `<ver>`, `<ds>` nonempty
digit runs, `<os>` an optional `-`-led word/dash platform suffix, and
`<v>` a nonempty digit/dot run) reconstructs the companion installer
archive name `8000-<ver>-iso-eft<v>.tar`, release identifier and eft tag
preserved verbatim. -/
theorem c4_companion_iso_reconstruction
    (ver ds os v : List Char)
    (hver : ver ≠ []) (hverd : ver.all isDig = true)
    (hds : ds ≠ []) (hdsd : ds.all isDig = true)
    (hv : v ≠ []) (hvd : v.all isDigitDot = true)
    (hos : os = [] ∨ ∃ w, os = '-' :: w ∧ w ≠ [] ∧ w.all isWordDash = true) :
    find_iso_name (String.mk (['8', '0', '0', '0', '-'] ++ (ver ++ ('-' :: 'f' :: '-' ::
        (ds ++ (os ++ (('-' :: ['i', 'm', 'a', 'g', 'e', '-']) ++
          ('e' :: 'f' :: 't' :: (v ++ ['.', 't', 'a', 'r']))))))))) =
      some (String.mk (['8', '0', '0', '0', '-'] ++ ver ++ ['-', 'i', 's', 'o', '-', 'e', 'f', 't']
        ++ v ++ ['.', 't', 'a', 'r'])) ∧
    find_iso_name (String.mk (['8', '0', '0', '0', '-'] ++ (ver ++ ('-' :: 'd' :: '-' ::
        (ds ++ (os ++ (('-' :: ['i', 'm', 'a', 'g', 'e', 's', '-']) ++
          ('e' :: 'f' :: 't' :: (v ++ ['.', 't', 'a', 'r']))))))))) =
      some (String.mk (['8', '0', '0', '0', '-'] ++ ver ++ ['-', 'i', 's', 'o', '-', 'e', 'f', 't']
        ++ v ++ ['.', 't', 'a', 'r'])) := by
  have hverd' := List.all_eq_true.mp hverd
  have hdsd' := List.all_eq_true.mp hdsd
  have hvd' := List.all_eq_true.mp hvd
  constructor
  · have h1 := matchImageTarName_shape 'f' ['i', 'm', 'a', 'g', 'e', '-'] ver ds os v
      hver hverd' hds hdsd' hv hvd' hos
    simp only [find_iso_name, data_mk]
    rw [show midImageRev = ('-' :: ['i', 'm', 'a', 'g', 'e', '-']).reverse from rfl]
    rw [h1]
    simp [buildIsoName]
  · have h0 := matchImageTarName_wrong_marker 'f' 'd' midImageRev ver
      ('-' :: (ds ++ (os ++ (('-' :: ['i', 'm', 'a', 'g', 'e', 's', '-']) ++
        ('e' :: 'f' :: 't' :: (v ++ ['.', 't', 'a', 'r']))))))
      hverd' (by decide)
    have h2 := matchImageTarName_shape 'd' ['i', 'm', 'a', 'g', 'e', 's', '-'] ver ds os v
      hver hverd' hds hdsd' hv hvd' hos
    simp only [find_iso_name, data_mk]
    rw [show midImageRev = ('-' :: ['i', 'm', 'a', 'g', 'e', '-']).reverse from rfl] at h0 ⊢
    rw [h0]
    rw [show midImagesRev = ('-' :: ['i', 'm', 'a', 'g', 'e', 's', '-']).reverse from rfl]
    rw [h2]
    simp [buildIsoName]

/-- Witness for C4: the documented fixed and distributed example filenames
both reconstruct `8000-2512-iso-eft15.1.tar`. -/
theorem c4_witness :
    find_iso_name "8000-2512-f-8101-image-eft15.1.tar" = some "8000-2512-iso-eft15.1.tar" ∧
    find_iso_name "8000-2512-d-8101-images-eft15.1.tar" = some "8000-2512-iso-eft15.1.tar" :=
  c4_companion_iso_reconstruction ['2', '5', '1', '2'] ['8', '1', '0', '1'] [] ['1', '5', '.', '1']
    (by decide) (by decide) (by decide) (by decide) (by decide) (by decide) (Or.inl rfl)

/-! ### Result reporter: `_extract_docker_image_path` (lines 610-660) and the
    exit-code policy of `CreateSingleDocker.run` (lines 792-824)

The regex `Saving docker image,.*?to\s+(.+\.tar)` with `re.IGNORECASE` is
embedded as follows: `re.search` tries each start position left to right
(`searchSaving`); the lazy `.*?` tries each following `to` position left to
right (`findToTar`); `\s+` consumes the maximal whitespace run and gives
characters back one at a time on failure, keeping at least one
(`trySpaces`); the greedy `(.+\.tar)` captures up to the last
case-insensitive `.tar` occurrence preceded by at least one character
(`tarGroup`).  This is exactly the backtracking order of the Python engine,
so the computed capture is the engine's capture. -/

/-- Case-insensitive literal match: the pattern is stored lowercase and
compared against the lowercased text character. -/
def ciLit : List Char → List Char → Option (List Char)
  | [], s => some s
  | _ :: _, [] => none
  | p :: ps, c :: cs => if p == c.toLower then ciLit ps cs else none

/-- The leading literal of the pattern, lowercase. -/
def savingLit : List Char := "saving docker image,".data

/-- Longest prefix of the text ending in a case-insensitive `.tar`
(position of the final occurrence may be the very start). -/
def tarEnd : List Char → Option (List Char)
  | [] => none
  | c :: cs =>
    match tarEnd cs with
    | some g => some (c :: g)
    | none =>
      match cs with
      | b :: d :: e :: _ =>
        if c == '.' && b.toLower == 't' && d.toLower == 'a' && e.toLower == 'r' then
          some [c, b, d, e]
        else none
      | _ => none

/-- Greedy capture `(.+\.tar)`: the longest prefix with at least one
character before its final case-insensitive `.tar`. -/
def tarGroup : List Char → Option (List Char)
  | [] => none
  | c :: cs => (tarEnd cs).map (fun g => c :: g)

/-- Backtracking `\s+` before the capture group: `spRev` is the reversed
maximal whitespace run; the capture is attempted after consuming all of it,
then giving back one whitespace character at a time, always keeping at
least one consumed. -/
def trySpaces : List Char → List Char → Option (List Char)
  | spRev, text =>
    match tarGroup text with
    | some g => some g
    | none =>
      match spRev with
      | [] => none
      | [_] => none
      | c :: rest => trySpaces rest (c :: text)

/-- Matches `\s+(.+\.tar)` at the current position. -/
def afterToMatch (rest : List Char) : Option (List Char) :=
  match rest.takeWhile isSpaceChar with
  | [] => none
  | sp => trySpaces sp.reverse (rest.dropWhile isSpaceChar)

/-- Lazy scan `.*?to\s+(.+\.tar)`: the earliest case-insensitive `to`
whose continuation completes wins. -/
def findToTar : List Char → Option (List Char)
  | [] => none
  | c :: cs =>
    match ciLit ['t', 'o'] (c :: cs) with
    | some r2 =>
      match afterToMatch r2 with
      | some g => some g
      | none => findToTar cs
    | none => findToTar cs

/-- Whole-pattern search over one (stripped) line: earliest occurrence of
the leading literal whose continuation completes. -/
def searchSaving : List Char → Option (List Char)
  | [] => none
  | c :: cs =>
    match ciLit savingLit (c :: cs) with
    | some r =>
      match findToTar r with
      | some g => some g
      | none => searchSaving cs
    | none => searchSaving cs

/-- Per-line step of `_extract_docker_image_path`: regex search on the
stripped line, then the Python-side validation `path and
path.endswith('.tar')` (case-sensitive), then the existence-dependent
normalisation `str(Path(path).resolve())`; a line failing validation is
skipped, not fatal.  `fs` abstracts `Path.exists`, `rsv` abstracts
`Path.resolve`. -/
def dockerLineResult (fs : String → Bool) (rsv : String → String) (line : String) : Option String :=
  match searchSaving (pyStrip line).data with
  | none => none
  | some g =>
    let path := pyStrip (String.mk g)
    if path != "" && strEnds ".tar" path then
      some (if fs path then rsv path else path)
    else none

/-- Python `output.split('\n')` as used on the captured child output. -/
def pySplitLines (s : String) : List String := (splitOnChar '\n' s.data).map String.mk

/-- Embedding of `_extract_docker_image_path`: first line whose match
survives validation yields the artifact path. -/
def extract_docker_image_path (fs : String → Bool) (rsv : String → String) (output : String) :
    Option String :=
  firstSome (dockerLineResult fs rsv) (pySplitLines output)

/-- The exit-code policy of `CreateSingleDocker.run` (lines 792-824): the
artifact path is extracted only when the child exited 0; a truthy extracted
path that does not exist on disk forces the final code to 1; otherwise the
child's code is returned. -/
def final_exit_code (childRc : Int) (fs : String → Bool) (rsv : String → String)
    (output : String) : Int :=
  match (if childRc == 0 then extract_docker_image_path fs rsv output else none) with
  | some p => if p != "" && !(fs p) then 1 else childRc
  | none => childRc


/-! ### Sentinel cleanup: `_cleanup_img_drop_folder` (lines 526-566) and
    `_cleanup_yaml_drop_folder` (lines 568-608) -/

/-- The directory named by a sentinel line:
`line.strip().split(':', 1)[1].strip()`; `none` models the `IndexError` a
colon-free line would raise into the surrounding `try/except`. -/
def sentinelPath (line : String) : Option String :=
  match (pyStrip line).data.dropWhile (fun c => c != ':') with
  | _ :: rest => some (String.mk (pyStripList rest))
  | [] => none

/-- Processing of the one sentinel line acted upon: when the named path
exists and is a directory (`isDirFs`), deletion is attempted (`rmOk` tells
whether `shutil.rmtree` succeeded) and its target recorded; otherwise a
"not found" diagnostic is logged and nothing is deleted.  The returned pair
is (Python return value, deletion target attempted); the Python
`try/except` around the whole body is modelled by totality. -/
def drop_folder_action (line : String) (isDirFs rmOk : String → Bool) : Bool × Option String :=
  match sentinelPath line with
  | none => (false, none)
  | some p => if isDirFs p then (rmOk p, some p) else (false, none)

/-- Embedding of the shared line-scanning shape of the two cleanup
functions: the first line whose stripped form starts with the sentinel tag
is processed and the scan returns immediately (both branches of the
processing `return`); with no sentinel the function returns `False`. -/
def cleanup_drop_lines (tag : String) (lines : List String) (isDirFs rmOk : String → Bool) :
    Bool × Option String :=
  match lines with
  | [] => (false, none)
  | l :: ls =>
    if strStarts tag (pyStrip l) then drop_folder_action l isDirFs rmOk
    else cleanup_drop_lines tag ls isDirFs rmOk

/-- Embedding of `_cleanup_img_drop_folder` on the captured output. -/
def cleanup_img_drop_folder (output : String) (isDirFs rmOk : String → Bool) : Bool × Option String :=
  cleanup_drop_lines "IMG_DROP_FOLDER:" (pySplitLines output) isDirFs rmOk

/-- Embedding of `_cleanup_yaml_drop_folder` on the captured output. -/
def cleanup_yaml_drop_folder (output : String) (isDirFs rmOk : String → Bool) : Bool × Option String :=
  cleanup_drop_lines "YAML_DROP_FOLDER:" (pySplitLines output) isDirFs rmOk

/-- A scan over lines none of which succeeds produces nothing. -/
theorem firstSome_eq_none {f : α → Option β} {l : List α} (h : ∀ a ∈ l, f a = none) :
    firstSome f l = none := by
  induction l with
  | nil => rfl
  | cons a as ih =>
    simp [firstSome, h a (by simp)]
    exact ih fun x hx => h x (by simp [hx])

/-- Scanning past non-sentinel lines reaches the first sentinel line, whose
processing alone determines the result, whatever follows it. -/
theorem cleanup_first_sentinel (tag : String) (pre post : List String) (line : String)
    (isDirFs rmOk : String → Bool)
    (hpre : ∀ l ∈ pre, strStarts tag (pyStrip l) = false)
    (hline : strStarts tag (pyStrip line) = true) :
    cleanup_drop_lines tag (pre ++ line :: post) isDirFs rmOk =
      drop_folder_action line isDirFs rmOk := by
  induction pre with
  | nil => simp [cleanup_drop_lines, hline]
  | cons a as ih =>
    have ha := hpre a (by simp)
    simp [cleanup_drop_lines, ha]
    exact ih fun l hl => hpre l (by simp [hl])

/-- C7: whenever the result reporter extracts an artifact path from the
captured output of a child that exited 0 and that path does not exist on
disk, the workflow's final exit code is 1. -/
theorem c7_missing_artifact_forces_failure
    (out : String) (fs : String → Bool) (rsv : String → String) (p : String)
    (hx : extract_docker_image_path fs rsv out = some p)
    (hne : p ≠ "") (hfs : fs p = false) :
    final_exit_code 0 fs rsv out = 1 := by
  simp [final_exit_code, hx, hfs, strBeqFalse hne]
  exact hne

/-- Witness for C7: a reported path `/tmp/out.tar` absent from the
(abstracted) filesystem forces exit code 1 despite the child's 0. -/
theorem c7_witness :
    extract_docker_image_path (fun _ => false) (fun s => s)
      "Saving docker image, now to /tmp/out.tar" = some "/tmp/out.tar" ∧
    final_exit_code 0 (fun _ => false) (fun s => s)
      "Saving docker image, now to /tmp/out.tar" = 1 :=
  ⟨by decide,
   c7_missing_artifact_forces_failure "Saving docker image, now to /tmp/out.tar"
     (fun _ => false) (fun s => s) "/tmp/out.tar" (by decide) (by decide) rfl⟩

/-- C8: when the child exits 0 and no line of its captured output matches
the saving-docker-image pattern, no artifact path is reported and the
workflow still returns 0. -/
theorem c8_no_match_keeps_child_exit
    (out : String) (fs : String → Bool) (rsv : String → String)
    (h : ∀ l ∈ pySplitLines out, searchSaving (pyStrip l).data = none) :
    extract_docker_image_path fs rsv out = none ∧ final_exit_code 0 fs rsv out = 0 := by
  have hx : extract_docker_image_path fs rsv out = none :=
    firstSome_eq_none fun l hl => by simp [dockerLineResult, h l hl]
  exact ⟨hx, by simp [final_exit_code, hx]⟩

/-- Witness for C8: output with no matching line reports nothing and exits
0. -/
theorem c8_witness :
    extract_docker_image_path (fun _ => true) (fun s => s) "build finished\nall ok" = none ∧
    final_exit_code 0 (fun _ => true) (fun s => s) "build finished\nall ok" = 0 :=
  c8_no_match_keeps_child_exit "build finished\nall ok" (fun _ => true) (fun s => s) (by decide)

/-- C9: sentinel cleanup acts only on the first line whose stripped form
begins with the (case-sensitive) sentinel tag: every earlier line is
skipped and every later line — including further sentinel occurrences — is
ignored, whatever the outcome of processing the first occurrence. -/
theorem c9_first_sentinel_only
    (tag : String) (pre post : List String) (line : String)
    (isDirFs rmOk : String → Bool)
    (hpre : ∀ l ∈ pre, strStarts tag (pyStrip l) = false)
    (hline : strStarts tag (pyStrip line) = true) :
    cleanup_drop_lines tag (pre ++ line :: post) isDirFs rmOk =
      drop_folder_action line isDirFs rmOk :=
  cleanup_first_sentinel tag pre post line isDirFs rmOk hpre hline

/-- Witness for C9: with two `IMG_DROP_FOLDER:` lines in the output, the
result is exactly the processing of the first, the second is ignored. -/
theorem c9_witness :
    cleanup_drop_lines "IMG_DROP_FOLDER:"
      (["building layers"] ++ "IMG_DROP_FOLDER: /tmp/a" :: ["IMG_DROP_FOLDER: /tmp/b"])
      (fun _ => false) (fun _ => false) =
      drop_folder_action "IMG_DROP_FOLDER: /tmp/a" (fun _ => false) (fun _ => false) :=
  c9_first_sentinel_only "IMG_DROP_FOLDER:" ["building layers"] ["IMG_DROP_FOLDER: /tmp/b"]
    "IMG_DROP_FOLDER: /tmp/a" (fun _ => false) (fun _ => false) (by decide) (by decide)

/-- C10: when the first sentinel line names a path that does not exist or
is not a directory, cleanup returns `False` without attempting any
deletion; when the deletion attempt itself fails, cleanup still returns
`False` with only that one target attempted — in both cases the (total)
function returns normally, so the run continues. -/
theorem c10_cleanup_never_fatal
    (tag : String) (pre post : List String) (line p : String)
    (isDirFs rmOk : String → Bool)
    (hpre : ∀ l ∈ pre, strStarts tag (pyStrip l) = false)
    (hline : strStarts tag (pyStrip line) = true)
    (hp : sentinelPath line = some p) :
    (isDirFs p = false →
      cleanup_drop_lines tag (pre ++ line :: post) isDirFs rmOk = (false, none)) ∧
    (isDirFs p = true → rmOk p = false →
      cleanup_drop_lines tag (pre ++ line :: post) isDirFs rmOk = (false, some p)) := by
  rw [cleanup_first_sentinel tag pre post line isDirFs rmOk hpre hline]
  constructor
  · intro hd
    simp [drop_folder_action, hp, hd]
  · intro hd hr
    simp [drop_folder_action, hp, hd, hr]

/-- Witness for C10: a `YAML_DROP_FOLDER:` sentinel with a missing
directory deletes nothing; with a failing deletion the result is still
`False` and the run continues. -/
theorem c10_witness :
    cleanup_drop_lines "YAML_DROP_FOLDER:" ["YAML_DROP_FOLDER: /tmp/y"]
      (fun _ => false) (fun _ => false) = (false, none) ∧
    cleanup_drop_lines "YAML_DROP_FOLDER:" ["YAML_DROP_FOLDER: /tmp/y"]
      (fun _ => true) (fun _ => false) = (false, some "/tmp/y") :=
  ⟨(c10_cleanup_never_fatal "YAML_DROP_FOLDER:" [] [] "YAML_DROP_FOLDER: /tmp/y" "/tmp/y"
      (fun _ => false) (fun _ => false) (by simp) (by decide) (by decide)).1 rfl,
   (c10_cleanup_never_fatal "YAML_DROP_FOLDER:" [] [] "YAML_DROP_FOLDER: /tmp/y" "/tmp/y"
      (fun _ => true) (fun _ => false) (by simp) (by decide) (by decide)).2 rfl rfl⟩
